import Mathlib

/-! Verification development for the flitify client action loop
(`app/client/clientconnection.py`).

The embedding models one `ClientConnection` session.  Python values that can
appear in an action payload are modelled by `Value` (strings and integers
suffice for every field the code inspects); a payload is an association list.
External effects (the OS agent, the filesystem, `subprocess.run`) are modelled
by an `Env` of oracle functions: each oracle fixes, for a given argument, which
of the outcomes the corresponding Python call has in this run (normal result,
`FileNotFoundError`, generic `Exception`, `TimeoutExpired`, ...).  A handler
returns a `StepResult` recording the responses sent through the connection,
the file writes performed, the exception (if any) propagating out of
`_actionLoop`, and whether `closeConnection` was called.
-/

/-- A Python value as far as the action loop inspects payloads: a string or an
integer.  (`commandData` values the code only forwards verbatim are also
represented by this type.) -/
inductive Value where
  | str (s : String)
  | int (n : Int)
deriving DecidableEq, Repr

/-- Python truthiness of a `Value`, as used by `if not command` /
`if not path or not filedata`: the empty string and zero are falsy. -/
def Value.truthy : Value → Bool
  | .str s => s ≠ ""
  | .int n => n ≠ 0

/-- An action or response payload: a string-keyed mapping. -/
def Payload := List (String × Value)
deriving DecidableEq, Repr

/-- Python `d.get(k)` on a dict: `some` of the value when the key is present. -/
def lookupKey (d : Payload) (k : String) : Option Value :=
  (List.find? (fun p => p.1 == k) d).map Prod.snd

/-- Python `k in d` on a dict. -/
def hasKey (d : Payload) (k : String) : Bool :=
  (lookupKey d k).isSome

/-- Truthiness of `d.get(k)`: `None` (absent key) is falsy, otherwise the
value's own truthiness. -/
def optTruthy : Option Value → Bool
  | none => false
  | some v => v.truthy

/-- One response as handed to `connection.sendResponse(type, payload)`. -/
def Response := String × Payload
deriving DecidableEq, Repr

/-! Base64 (the `base64.b64encode` / `base64.b64decode` calls)

Standard base64 with the RFC 4648 alphabet and `=` padding, the encoding used
by CPython's `base64` module.  Bytes are `Nat`s below 256. -/

/-- The standard base64 alphabet, index `n` holding the digit for sixtet `n`. -/
def b64alphabet : List Char :=
  ['A', 'B', 'C', 'D', 'E', 'F', 'G', 'H', 'I', 'J', 'K', 'L', 'M',
   'N', 'O', 'P', 'Q', 'R', 'S', 'T', 'U', 'V', 'W', 'X', 'Y', 'Z',
   'a', 'b', 'c', 'd', 'e', 'f', 'g', 'h', 'i', 'j', 'k', 'l', 'm',
   'n', 'o', 'p', 'q', 'r', 's', 't', 'u', 'v', 'w', 'x', 'y', 'z',
   '0', '1', '2', '3', '4', '5', '6', '7', '8', '9', '+', '/']

/-- Digit character for a sixtet. -/
def b64char (n : Nat) : Char :=
  b64alphabet.getD n '='

/-- Sixtet for a digit character, `none` when the character is not in the
alphabet. -/
def b64index (c : Char) : Option Nat :=
  b64alphabet.findIdx? (fun x => x = c)

/-- Base64-encode a byte list: three bytes become four digits, a final one or
two bytes become a padded group. -/
def b64encodeBytes : List Nat → List Char
  | a :: b :: c :: rest =>
      b64char (a / 4) :: b64char (a % 4 * 16 + b / 16) ::
      b64char (b % 16 * 4 + c / 64) :: b64char (c % 64) :: b64encodeBytes rest
  | [a, b] => [b64char (a / 4), b64char (a % 4 * 16 + b / 16), b64char (b % 16 * 4), '=']
  | [a] => [b64char (a / 4), b64char (a % 4 * 16), '=', '=']
  | [] => []

/-- The call `base64.b64encode(bytes).decode()`. -/
def b64encode (bs : List Nat) : String :=
  String.mk (b64encodeBytes bs)

/-- Decode one four-character base64 group; `=` padding may close the final
group.  `none` models `binascii.Error`. -/
def b64decodeGroup (c1 c2 c3 c4 : Char) (final : Bool) : Option (List Nat) :=
  match b64index c1, b64index c2 with
  | some n1, some n2 =>
    if c3 = '=' then
      if c4 = '=' && final then some [n1 * 4 + n2 / 16] else none
    else
      match b64index c3 with
      | some n3 =>
        if c4 = '=' then
          if final then some [n1 * 4 + n2 / 16, n2 % 16 * 16 + n3 / 4] else none
        else
          match b64index c4 with
          | some n4 => some [n1 * 4 + n2 / 16, n2 % 16 * 16 + n3 / 4, n3 % 4 * 64 + n4]
          | none => none
      | none => none
  | _, _ => none

/-- Decode a base64 character sequence group by group. -/
def b64decodeChars : List Char → Option (List Nat)
  | [] => some []
  | c1 :: c2 :: c3 :: c4 :: rest =>
    match b64decodeGroup c1 c2 c3 c4 (rest.isEmpty) with
    | some grp =>
      match b64decodeChars rest with
      | some tail => some (grp ++ tail)
      | none => none
    | none => none
  | _ => none

/-- The call `base64.b64decode(s)`: `none` models the raised `binascii.Error` on a
malformed encoding. -/
def b64decode (s : String) : Option (List Nat) :=
  b64decodeChars s.data

/-! External oracles -/

/-- Outcome of `osagent.getStatus()`: the status mapping, or an exception (the
agent is external code; `get_status` has no handler-level containment). -/
inductive StatusOutcome where
  | ok (status : Payload)
  | failure

/-- Outcome of `osagent.getDirectoryListing(path)`: the entries, a
`FileNotFoundError` for a missing path, or any other exception. -/
inductive DirListing where
  | ok (entries : Value)
  | fileNotFound
  | failure

/-- Outcome of `open(path, 'rb').read()`: the bytes, or an exception. -/
inductive ReadOutcome where
  | ok (bytes : List Nat)
  | failure

/-- Outcome of `subprocess.run(command, shell=True, ..., timeout=timeout)`:
normal completion with captured streams and exit code, `TimeoutExpired`, or
any other exception. -/
inductive ShellOutcome where
  | completed (stdout stderr : String) (exitcode : Int)
  | timeoutExpired
  | failure

/-- The external world of one run: one oracle per external call the handlers
make.  Paths and shell commands are passed as the `Value` taken from the
payload (the Python code never checks their types). -/
structure Env where
  getStatus : StatusOutcome
  listDirectory : Value → DirListing
  isfile : Value → Bool
  readFile : Value → ReadOutcome
  pathExists : Value → Bool
  writeSucceeds : Value → Bool
  runShell : Value → Value → ShellOutcome

/-- Exceptions that can propagate out of `_actionLoop`. -/
inductive Exc where
  | connectionKicked (reason : Value)
  | valueError (msg : String)
  | externalError
deriving DecidableEq, Repr

/-- Observable effects of handling one action (or of a whole loop run):
responses sent in order, file writes performed in order, the exception
propagating out (terminating the loop), and whether `closeConnection` ran. -/
structure StepResult where
  sent : List Response
  writes : List (Value × List Nat)
  exc : Option Exc
  closedConn : Bool
deriving DecidableEq, Repr

/-- Handler `ClientConnection.getDirectoryListing`: try the agent listing;
`FileNotFoundError` yields `not_found`, any other exception `failed`. -/
def getDirectoryListing (env : Env) (path : Value) : StepResult :=
  match env.listDirectory path with
  | .ok entries =>
      ⟨[("list_dir", [("status", .str "ok"), ("entries", entries)])], [], none, false⟩
  | .fileNotFound =>
      ⟨[("list_dir", [("status", .str "not_found")])], [], none, false⟩
  | .failure =>
      ⟨[("list_dir", [("status", .str "failed")])], [], none, false⟩

/-- Handler `ClientConnection.sendFile`: `not_found` unless `os.path.isfile`, else read
the whole file and send its base64 encoding; a read failure yields `failed`. -/
def sendFile (env : Env) (path : Value) : StepResult :=
  if !env.isfile path then
    ⟨[("file_send", [("status", .str "not_found")])], [], none, false⟩
  else
    match env.readFile path with
    | .ok bytes =>
        ⟨[("file_send", [("status", .str "ok"), ("filedata", .str (b64encode bytes))])],
         [], none, false⟩
    | .failure =>
        ⟨[("file_send", [("status", .str "failed")])], [], none, false⟩

/-- The call `base64.b64decode(base64data)` as made by `saveFile`: a non-string
argument raises `TypeError`, which the handler's `except` also catches, so it
is modelled as a decode failure too. -/
def decodeFiledata : Value → Option (List Nat)
  | .str s => b64decode s
  | _ => none

/-- Handler `ClientConnection.saveFile`: decode first; then refuse an existing
destination with `file_exists`; then write.  Decode and write failures yield
`failed`. -/
def saveFile (env : Env) (path : Value) (base64data : Value) : StepResult :=
  match decodeFiledata base64data with
  | none =>
      ⟨[("file_upload", [("status", .str "failed")])], [], none, false⟩
  | some fileBytes =>
    if env.pathExists path then
      ⟨[("file_upload", [("status", .str "file_exists")])], [], none, false⟩
    else if env.writeSucceeds path then
      ⟨[("file_upload", [("status", .str "ok")])], [(path, fileBytes)], none, false⟩
    else
      ⟨[("file_upload", [("status", .str "failed")])], [], none, false⟩

/-- Constant `DEFAULT_TIMEOUT = 5`. -/
def DEFAULT_TIMEOUT : Value := .int 5

/-- Handler `ClientConnection.executeShellCommand`: run under the timeout; completion
yields `ok` with streams and exit code, `TimeoutExpired` yields the fixed
timeout response, any other exception `failed`. -/
def executeShellCommand (env : Env) (command : Value) (timeout : Value) : StepResult :=
  match env.runShell command timeout with
  | .completed out err code =>
      ⟨[("shell_result", [("status", .str "ok"), ("stdout", .str out),
                          ("stderr", .str err), ("exitcode", .int code)])], [], none, false⟩
  | .timeoutExpired =>
      ⟨[("shell_result", [("status", .str "timeout"), ("stderr", .str "Command timed out"),
                          ("exitcode", .int (-1))])], [], none, false⟩
  | .failure =>
      ⟨[("shell_result", [("status", .str "failed")])], [], none, false⟩

/-- The dispatch body of one `_actionLoop` iteration: Python's `match command`
over string literals is sequential equality testing, rendered here as an
if-chain.  The statements after the `raise ConnectionKickedError` in the
`kick` case are dead code and never run, so that path closes nothing. -/
def handleAction (env : Env) (command : String) (commandData : Payload) : StepResult :=
  if command = "kick" then
    match lookupKey commandData "reason" with
    | none => ⟨[], [], some (.valueError "kicked without reason"), false⟩
    | some reason => ⟨[], [], some (.connectionKicked reason), false⟩
  else if command = "ping" then
    ⟨[("pong", [])], [], none, false⟩
  else if command = "get_status" then
    match env.getStatus with
    | .ok statusDict => ⟨[("status", statusDict)], [], none, false⟩
    | .failure => ⟨[], [], some .externalError, false⟩
  else if command = "list_dir" then
    getDirectoryListing env ((lookupKey commandData "path").getD (.str "/"))
  else if command = "shell_command" then
    if !optTruthy (lookupKey commandData "command") then
      ⟨[("shell_response", [("status", .str "failed")])], [],
       some (.valueError "shell_command: command not found in server request"), false⟩
    else
      executeShellCommand env ((lookupKey commandData "command").getD (.str ""))
        ((lookupKey commandData "timeout").getD DEFAULT_TIMEOUT)
  else if command = "get_file" then
    if !hasKey commandData "path" then
      ⟨[("file_send", [("status", .str "failed")])], [],
       some (.valueError "file_send: path not found in server request"), false⟩
    else
      sendFile env ((lookupKey commandData "path").getD (.str ""))
  else if command = "upload_file" then
    if !optTruthy (lookupKey commandData "path") || !optTruthy (lookupKey commandData "filedata") then
      ⟨[], [], some (.valueError "upload_file: path or filedata missing"), false⟩
    else
      saveFile env ((lookupKey commandData "path").getD (.str ""))
        ((lookupKey commandData "filedata").getD (.str ""))
  else
    ⟨[("invalid_action", [])], [], none, false⟩

/-- Loop `ClientConnection._actionLoop` over the stream of actions the connection
delivers while `running` stays true: the end of the list models the
`running` flag turning false (the loop's non-error `break` exit).  An
exception from an iteration terminates the loop, discarding the remaining
actions. -/
def actionLoop (env : Env) : List (String × Payload) → StepResult
  | [] => ⟨[], [], none, false⟩
  | (command, commandData) :: rest =>
    if (handleAction env command commandData).exc.isSome then
      handleAction env command commandData
    else
      ⟨(handleAction env command commandData).sent ++ (actionLoop env rest).sent,
       (handleAction env command commandData).writes ++ (actionLoop env rest).writes,
       (actionLoop env rest).exc,
       (handleAction env command commandData).closedConn || (actionLoop env rest).closedConn⟩

/-- The seven commands of the dispatch table. -/
def knownCommands : List String :=
  ["kick", "ping", "get_status", "list_dir", "shell_command", "get_file", "upload_file"]

/-- The response type each command elicits according to the table in
section 6 of the spec (the spec's words, for comparison against
`handleAction`); `kick` elicits none, unknown commands `invalid_action`. -/
def specResponseType : String → Option String
  | "ping" => some "pong"
  | "get_status" => some "status"
  | "list_dir" => some "list_dir"
  | "shell_command" => some "shell_result"
  | "get_file" => some "file_send"
  | "upload_file" => some "file_upload"
  | "kick" => none
  | _ => some "invalid_action"

/-- Decoding a digit recovers its sixtet. -/
theorem b64index_b64char : ∀ n < 64, b64index (b64char n) = some n := by decide

/-- Digits are never the padding character. -/
theorem b64char_ne_pad : ∀ n < 64, b64char n ≠ '=' := by decide

/-- Decoding an unpadded group recovers its three bytes and continues. -/
theorem b64decodeChars_group (n1 n2 n3 n4 : Nat)
    (h1 : n1 < 64) (h2 : n2 < 64) (h3 : n3 < 64) (h4 : n4 < 64) (rest : List Char) :
    b64decodeChars (b64char n1 :: b64char n2 :: b64char n3 :: b64char n4 :: rest) =
      (b64decodeChars rest).map
        (fun tail => (n1 * 4 + n2 / 16) :: (n2 % 16 * 16 + n3 / 4) :: (n3 % 4 * 64 + n4) :: tail) := by
  have e1 := b64index_b64char n1 h1
  have e2 := b64index_b64char n2 h2
  have e3 := b64index_b64char n3 h3
  have e4 := b64index_b64char n4 h4
  have p3 := b64char_ne_pad n3 h3
  have p4 := b64char_ne_pad n4 h4
  cases hrest : b64decodeChars rest <;>
    simp [b64decodeChars, b64decodeGroup, e1, e2, e3, e4, p3, p4, hrest]

/-- Decoding a doubly padded final group recovers its single byte. -/
theorem b64decodeChars_final1 (n1 n2 : Nat) (h1 : n1 < 64) (h2 : n2 < 64) :
    b64decodeChars [b64char n1, b64char n2, '=', '='] = some [n1 * 4 + n2 / 16] := by
  have e1 := b64index_b64char n1 h1
  have e2 := b64index_b64char n2 h2
  simp [b64decodeChars, b64decodeGroup, e1, e2]

/-- Decoding a singly padded final group recovers its two bytes. -/
theorem b64decodeChars_final2 (n1 n2 n3 : Nat) (h1 : n1 < 64) (h2 : n2 < 64) (h3 : n3 < 64) :
    b64decodeChars [b64char n1, b64char n2, b64char n3, '='] =
      some [n1 * 4 + n2 / 16, n2 % 16 * 16 + n3 / 4] := by
  have e1 := b64index_b64char n1 h1
  have e2 := b64index_b64char n2 h2
  have e3 := b64index_b64char n3 h3
  have p3 := b64char_ne_pad n3 h3
  simp [b64decodeChars, b64decodeGroup, e1, e2, e3, p3]

/-- Character-level round trip: decoding the encoding of any byte list
recovers the list. -/
theorem b64decodeChars_b64encodeBytes :
    ∀ bs : List Nat, (∀ b ∈ bs, b < 256) → b64decodeChars (b64encodeBytes bs) = some bs := by
  intro bs
  induction bs using b64encodeBytes.induct with
  | case1 a b c rest ih =>
    intro h
    have ha : a < 256 := h a (by simp)
    have hb : b < 256 := h b (by simp)
    have hc : c < 256 := h c (by simp)
    rw [b64encodeBytes,
      b64decodeChars_group _ _ _ _ (by omega) (by omega) (by omega) (by omega),
      ih (fun x hx => h x (by simp [hx]))]
    simp only [Option.map_some', Option.some.injEq, List.cons.injEq]
    exact ⟨by omega, by omega, by omega, trivial⟩
  | case2 a b =>
    intro h
    have ha : a < 256 := h a (by simp)
    have hb : b < 256 := h b (by simp)
    rw [b64encodeBytes, b64decodeChars_final2 _ _ _ (by omega) (by omega) (by omega)]
    simp only [Option.some.injEq, List.cons.injEq]
    exact ⟨by omega, by omega, trivial⟩
  | case3 a =>
    intro h
    have ha : a < 256 := h a (by simp)
    rw [b64encodeBytes, b64decodeChars_final1 _ _ (by omega) (by omega)]
    simp only [Option.some.injEq, List.cons.injEq]
    exact ⟨by omega, trivial⟩
  | case4 =>
    intro _
    rfl

/-- Sanity checks of the base64 embedding against values computed by
CPython's `base64` module. -/
theorem b64_matches_cpython :
    b64encode [104, 105] = "aGk=" ∧ b64decode "aGk=" = some [104, 105] ∧
    b64decode "AB" = none ∧ b64encode [77, 97, 110] = "TWFu" ∧
    b64decode "TWFu" = some [77, 97, 110] := by decide

/-! Unfolding lemmas for the dispatch and the loop -/

theorem handleAction_kick (env : Env) (d : Payload) :
    handleAction env "kick" d =
      match lookupKey d "reason" with
      | none => ⟨[], [], some (.valueError "kicked without reason"), false⟩
      | some reason => ⟨[], [], some (.connectionKicked reason), false⟩ := rfl

theorem handleAction_ping (env : Env) (d : Payload) :
    handleAction env "ping" d = ⟨[("pong", [])], [], none, false⟩ := rfl

theorem handleAction_get_status (env : Env) (d : Payload) :
    handleAction env "get_status" d =
      match env.getStatus with
      | .ok statusDict => ⟨[("status", statusDict)], [], none, false⟩
      | .failure => ⟨[], [], some .externalError, false⟩ := rfl

theorem handleAction_list_dir (env : Env) (d : Payload) :
    handleAction env "list_dir" d =
      getDirectoryListing env ((lookupKey d "path").getD (.str "/")) := rfl

theorem handleAction_shell_command (env : Env) (d : Payload) :
    handleAction env "shell_command" d =
      if !optTruthy (lookupKey d "command") then
        ⟨[("shell_response", [("status", .str "failed")])], [],
         some (.valueError "shell_command: command not found in server request"), false⟩
      else
        executeShellCommand env ((lookupKey d "command").getD (.str ""))
          ((lookupKey d "timeout").getD DEFAULT_TIMEOUT) := rfl

theorem handleAction_get_file (env : Env) (d : Payload) :
    handleAction env "get_file" d =
      if !hasKey d "path" then
        ⟨[("file_send", [("status", .str "failed")])], [],
         some (.valueError "file_send: path not found in server request"), false⟩
      else
        sendFile env ((lookupKey d "path").getD (.str "")) := rfl

theorem handleAction_upload_file (env : Env) (d : Payload) :
    handleAction env "upload_file" d =
      if !optTruthy (lookupKey d "path") || !optTruthy (lookupKey d "filedata") then
        ⟨[], [], some (.valueError "upload_file: path or filedata missing"), false⟩
      else
        saveFile env ((lookupKey d "path").getD (.str ""))
          ((lookupKey d "filedata").getD (.str "")) := rfl

theorem handleAction_unknown (env : Env) (command : String) (d : Payload)
    (hk : command ≠ "kick") (hp : command ≠ "ping") (hs : command ≠ "get_status")
    (hl : command ≠ "list_dir") (hsh : command ≠ "shell_command")
    (hg : command ≠ "get_file") (hu : command ≠ "upload_file") :
    handleAction env command d = ⟨[("invalid_action", [])], [], none, false⟩ := by
  simp [handleAction, hk, hp, hs, hl, hsh, hg, hu]

theorem actionLoop_cons_exc (env : Env) (command : String) (d : Payload)
    (rest : List (String × Payload)) (h : (handleAction env command d).exc.isSome = true) :
    actionLoop env ((command, d) :: rest) = handleAction env command d := by
  simp [actionLoop, h]

theorem actionLoop_cons_ok (env : Env) (command : String) (d : Payload)
    (rest : List (String × Payload)) (h : (handleAction env command d).exc = none) :
    actionLoop env ((command, d) :: rest) =
      ⟨(handleAction env command d).sent ++ (actionLoop env rest).sent,
       (handleAction env command d).writes ++ (actionLoop env rest).writes,
       (actionLoop env rest).exc,
       (handleAction env command d).closedConn || (actionLoop env rest).closedConn⟩ := by
  simp [actionLoop, h]

/-! Concrete environments for witnesses and counterexamples -/

/-- An environment in which every external call succeeds, the shell completes
normally, and no destination path exists yet. -/
def envOk : Env :=
  ⟨.ok [("os", .str "linux")],
   fun _ => .ok (.str "entries"),
   fun _ => true,
   fun _ => .ok [104, 105, 255],
   fun _ => false,
   fun _ => true,
   fun _ _ => .completed "out" "err" 0⟩

/-- An environment in which the agent status call fails, listing hits
`FileNotFoundError`, no path is a regular file, reads fail, every destination
path already exists, writes fail, and the shell times out. -/
def envDown : Env :=
  ⟨.failure,
   fun _ => .fileNotFound,
   fun _ => false,
   fun _ => .failure,
   fun _ => true,
   fun _ => false,
   fun _ _ => .timeoutExpired⟩

/-- An environment in which listing, reads and the shell fail with generic
exceptions. -/
def envErr : Env :=
  ⟨.failure,
   fun _ => .failure,
   fun _ => true,
   fun _ => .failure,
   fun _ => true,
   fun _ => false,
   fun _ _ => .failure⟩

/-! The claims -/

/-- Claim C3: a `kick` Action with a `reason` field makes the Router raise the
distinguished kicked condition carrying exactly that reason, which propagates
immediately: no Response is sent, the remaining actions are never processed,
and the Router performs no connection close after the raise; without a
`reason` the Router raises the malformed-request failure instead, again
terminating the loop. -/
theorem c3_kick_raises_kicked (env : Env) (commandData : Payload)
    (rest : List (String × Payload)) :
    (∀ v, lookupKey commandData "reason" = some v →
      actionLoop env (("kick", commandData) :: rest) =
        ⟨[], [], some (.connectionKicked v), false⟩) ∧
    (lookupKey commandData "reason" = none →
      actionLoop env (("kick", commandData) :: rest) =
        ⟨[], [], some (.valueError "kicked without reason"), false⟩) := by
  constructor
  · intro v hv
    rw [actionLoop_cons_exc env _ _ _ (by rw [handleAction_kick, hv]; rfl)]
    rw [handleAction_kick, hv]
  · intro hv
    rw [actionLoop_cons_exc env _ _ _ (by rw [handleAction_kick, hv]; rfl)]
    rw [handleAction_kick, hv]

theorem c3_witness :
    lookupKey [("reason", Value.str "maintenance")] "reason" =
      some (Value.str "maintenance") ∧
    actionLoop envOk [("kick", [("reason", Value.str "maintenance")]), ("ping", [])] =
      ⟨[], [], some (Exc.connectionKicked (Value.str "maintenance")), false⟩ :=
  ⟨by decide,
   (c3_kick_raises_kicked envOk [("reason", Value.str "maintenance")] [("ping", [])]).1
     (Value.str "maintenance") (by decide)⟩

/-- Claim C8: decoding the base64 encoding produced by the download handler
recovers exactly the original bytes, and uploading that encoding to a fresh
writable path writes exactly the original bytes, so a download followed by an
upload round-trips the file contents unchanged. -/
theorem c8_base64_roundtrip (env : Env) (p : Value) (bs : List Nat)
    (h : ∀ b ∈ bs, b < 256) :
    b64decode (b64encode bs) = some bs ∧
    (env.pathExists p = false → env.writeSucceeds p = true →
      saveFile env p (.str (b64encode bs)) =
        ⟨[("file_upload", [("status", .str "ok")])], [(p, bs)], none, false⟩) := by
  have hrt : b64decode (b64encode bs) = some bs := b64decodeChars_b64encodeBytes bs h
  refine ⟨hrt, fun hex hwr => ?_⟩
  simp [saveFile, decodeFiledata, hrt, hex, hwr]

theorem c8_witness :
    (∀ b ∈ [0, 104, 255, 1, 2], b < 256) ∧
    envOk.pathExists (Value.str "/tmp/fresh") = false ∧
    envOk.writeSucceeds (Value.str "/tmp/fresh") = true ∧
    (b64decode (b64encode [0, 104, 255, 1, 2]) = some [0, 104, 255, 1, 2] ∧
     saveFile envOk (Value.str "/tmp/fresh") (.str (b64encode [0, 104, 255, 1, 2])) =
       ⟨[("file_upload", [("status", .str "ok")])],
        [(Value.str "/tmp/fresh", [0, 104, 255, 1, 2])], none, false⟩) :=
  ⟨by decide, by decide, by decide,
   ⟨(c8_base64_roundtrip envOk (Value.str "/tmp/fresh") [0, 104, 255, 1, 2] (by decide)).1,
    (c8_base64_roundtrip envOk (Value.str "/tmp/fresh") [0, 104, 255, 1, 2] (by decide)).2
      (by decide) (by decide)⟩⟩

/-- Claim C9: the required-field test is inconsistent across commands: a
`shell_command` with `command` present but empty and an `upload_file` with
`path` or `filedata` present but empty behave exactly like the missing-field
case (failure raised, loop terminated), while a `get_file` with `path` present
but empty passes the key-presence test and is handed to the download
handler. -/
theorem c9_presence_tests_inconsistent (env : Env) (rest : List (String × Payload)) :
    (handleAction env "shell_command" [("command", Value.str "")] =
      handleAction env "shell_command" ([] : Payload)) ∧
    ((handleAction env "shell_command" [("command", Value.str "")]).exc =
      some (Exc.valueError "shell_command: command not found in server request")) ∧
    (handleAction env "upload_file" [("path", Value.str ""), ("filedata", Value.str "aGk=")] =
      handleAction env "upload_file" ([] : Payload)) ∧
    (handleAction env "upload_file" [("path", Value.str "/p"), ("filedata", Value.str "")] =
      handleAction env "upload_file" ([] : Payload)) ∧
    ((handleAction env "upload_file" ([] : Payload)).exc =
      some (Exc.valueError "upload_file: path or filedata missing")) ∧
    (handleAction env "get_file" [("path", Value.str "")] = sendFile env (Value.str "")) ∧
    ((actionLoop env (("shell_command", [("command", Value.str "")]) :: rest)).exc.isSome =
      true) ∧
    ((handleAction env "get_file" [("path", Value.str "")]).exc = none) := by
  refine ⟨rfl, rfl, rfl, rfl, rfl, rfl, ?_, ?_⟩
  · rw [actionLoop_cons_exc env "shell_command" [("command", Value.str "")] rest rfl]; rfl
  · rw [show handleAction env "get_file" [("path", Value.str "")] = sendFile env (Value.str "")
        from rfl]
    unfold sendFile
    cases hf : env.isfile (Value.str "")
    · simp [hf]
    · cases hr : env.readFile (Value.str "") <;> simp [hf, hr]

/-- Claim C10: the upload handler decodes the base64 payload before checking
the destination, so an invalid `filedata` yields the `failed` Response even
when the destination path already exists, and `file_exists` is reported only
when decoding succeeded. -/
theorem c10_decode_precedes_exists_check (env : Env) (path fd : Value) :
    (decodeFiledata fd = none →
      saveFile env path fd =
        ⟨[("file_upload", [("status", Value.str "failed")])], [], none, false⟩) ∧
    ((saveFile env path fd).sent =
        [("file_upload", [("status", Value.str "file_exists")])] →
      (decodeFiledata fd).isSome = true) := by
  constructor
  · intro hd
    simp [saveFile, hd]
  · intro hc
    cases hd : decodeFiledata fd with
    | none =>
      simp [saveFile, hd] at hc
      exact absurd hc (by decide)
    | some bs => simp [hd]

theorem c10_witness :
    decodeFiledata (Value.str "AB") = none ∧
    envDown.pathExists (Value.str "/tmp/present") = true ∧
    saveFile envDown (Value.str "/tmp/present") (Value.str "AB") =
      ⟨[("file_upload", [("status", Value.str "failed")])], [], none, false⟩ :=
  ⟨by decide, by decide,
   (c10_decode_precedes_exists_check envDown (Value.str "/tmp/present") (Value.str "AB")).1
     (by decide)⟩

/-- Claim C5 counterexample: an `upload_file` whose destination path exists
but whose `filedata` is not valid base64 gets the `failed` Response, not
`file_exists`, so the claim as stated fails at this input. -/
theorem c5_counterexample :
    envDown.pathExists (Value.str "/tmp/target") = true ∧
    saveFile envDown (Value.str "/tmp/target") (Value.str "A===") =
      ⟨[("file_upload", [("status", Value.str "failed")])], [], none, false⟩ ∧
    (saveFile envDown (Value.str "/tmp/target") (Value.str "A===")).sent ≠
      [("file_upload", [("status", Value.str "file_exists")])] := by
  decide

/-- Claim C5 (amended): for every `upload_file` whose destination path exists
and whose `filedata` decodes successfully, the handler sends the `file_exists`
Response; and whenever the destination exists it performs no write at all and
raises nothing, so the loop continues. -/
theorem c5_exists_refuses_overwrite (env : Env) (path fd : Value)
    (he : env.pathExists path = true) :
    ((decodeFiledata fd).isSome = true →
      saveFile env path fd =
        ⟨[("file_upload", [("status", Value.str "file_exists")])], [], none, false⟩) ∧
    (saveFile env path fd).writes = [] ∧
    (saveFile env path fd).exc = none := by
  cases hd : decodeFiledata fd with
  | none => exact ⟨by simp [hd], by simp [saveFile, hd], by simp [saveFile, hd]⟩
  | some bs => exact ⟨fun _ => by simp [saveFile, hd, he], by simp [saveFile, hd, he],
      by simp [saveFile, hd, he]⟩

theorem c5_witness :
    envDown.pathExists (Value.str "/tmp/kept") = true ∧
    (decodeFiledata (Value.str "aGk=")).isSome = true ∧
    saveFile envDown (Value.str "/tmp/kept") (Value.str "aGk=") =
      ⟨[("file_upload", [("status", Value.str "file_exists")])], [], none, false⟩ ∧
    (saveFile envDown (Value.str "/tmp/kept") (Value.str "aGk=")).writes = [] :=
  ⟨by decide, by decide,
   (c5_exists_refuses_overwrite envDown (Value.str "/tmp/kept") (Value.str "aGk=")
     (by decide)).1 (by decide),
   (c5_exists_refuses_overwrite envDown (Value.str "/tmp/kept") (Value.str "aGk=")
     (by decide)).2.1⟩

/-- Claim C2 counterexample: on the four missing-required-field commands the
Router sends a best-effort failure Response for only two of them
(`shell_command` and `get_file`); `kick` and `upload_file` send none, so the
count is 2 and not 3 as the claim states. -/
theorem c2_counterexample :
    (handleAction envOk "kick" ([] : Payload)).sent = [] ∧
    (handleAction envOk "upload_file" ([] : Payload)).sent = [] ∧
    (handleAction envOk "shell_command" ([] : Payload)).sent.length = 1 ∧
    (handleAction envOk "get_file" ([] : Payload)).sent.length = 1 ∧
    (List.filter (fun c => !(handleAction envOk c ([] : Payload)).sent.isEmpty)
        ["shell_command", "get_file", "kick", "upload_file"]).length = 2 ∧
    (List.filter (fun c => !(handleAction envOk c ([] : Payload)).sent.isEmpty)
        ["shell_command", "get_file", "kick", "upload_file"]).length ≠ 3 := by
  decide

/-- Claim C2 (amended): a missing required field makes the failure propagate
out of the Router and terminate the loop for each of the four commands, and a
best-effort failure Response is sent first for exactly two of the four:
`shell_command` (a `shell_response` Response with status `failed`) and
`get_file` (a `file_send` Response with status `failed`); `kick` and
`upload_file` raise immediately with no Response sent first. -/
theorem c2_missing_field_terminates (env : Env) (commandData : Payload)
    (rest : List (String × Payload)) :
    (optTruthy (lookupKey commandData "command") = false →
      actionLoop env (("shell_command", commandData) :: rest) =
        ⟨[("shell_response", [("status", .str "failed")])], [],
         some (.valueError "shell_command: command not found in server request"), false⟩) ∧
    (hasKey commandData "path" = false →
      actionLoop env (("get_file", commandData) :: rest) =
        ⟨[("file_send", [("status", .str "failed")])], [],
         some (.valueError "file_send: path not found in server request"), false⟩) ∧
    (lookupKey commandData "reason" = none →
      actionLoop env (("kick", commandData) :: rest) =
        ⟨[], [], some (.valueError "kicked without reason"), false⟩) ∧
    ((optTruthy (lookupKey commandData "path") = false ∨
        optTruthy (lookupKey commandData "filedata") = false) →
      actionLoop env (("upload_file", commandData) :: rest) =
        ⟨[], [], some (.valueError "upload_file: path or filedata missing"), false⟩) := by
  refine ⟨fun h => ?_, fun h => ?_, fun h => ?_, fun h => ?_⟩
  · rw [actionLoop_cons_exc env _ _ _ (by rw [handleAction_shell_command]; simp [h]),
      handleAction_shell_command]
    simp [h]
  · rw [actionLoop_cons_exc env _ _ _ (by rw [handleAction_get_file]; simp [h]),
      handleAction_get_file]
    simp [h]
  · rw [actionLoop_cons_exc env _ _ _ (by rw [handleAction_kick, h]; rfl),
      handleAction_kick, h]
  · rcases h with h | h
    · rw [actionLoop_cons_exc env _ _ _ (by rw [handleAction_upload_file]; simp [h]),
        handleAction_upload_file]
      simp [h]
    · rw [actionLoop_cons_exc env _ _ _ (by rw [handleAction_upload_file]; simp [h]),
        handleAction_upload_file]
      simp [h]

theorem c2_witness :
    optTruthy (lookupKey ([] : Payload) "command") = false ∧
    hasKey ([] : Payload) "path" = false ∧
    actionLoop envOk [("shell_command", ([] : Payload)), ("ping", ([] : Payload))] =
      ⟨[("shell_response", [("status", .str "failed")])], [],
       some (.valueError "shell_command: command not found in server request"), false⟩ ∧
    actionLoop envOk [("get_file", ([] : Payload)), ("ping", ([] : Payload))] =
      ⟨[("file_send", [("status", .str "failed")])], [],
       some (.valueError "file_send: path not found in server request"), false⟩ :=
  ⟨by decide, by decide,
   (c2_missing_field_terminates envOk [] [("ping", [])]).1 (by decide),
   (c2_missing_field_terminates envOk [] [("ping", [])]).2.1 (by decide)⟩

/-- Claim C4: for a `shell_command` with a present (truthy) `command`, with the
timeout taken from the payload and defaulting to 5, a run that exceeds the
timeout sends exactly the `shell_result` Response with status `timeout`,
stderr "Command timed out" and exitcode -1, and the loop continues; any other
execution failure sends status `failed` and the loop continues; normal
completion sends status `ok` carrying stdout, stderr and the exit code. -/
theorem c4_shell_outcomes (env : Env) (commandData : Payload)
    (rest : List (String × Payload)) (v : Value)
    (hv : lookupKey commandData "command" = some v) (htr : v.truthy = true) :
    (env.runShell v ((lookupKey commandData "timeout").getD DEFAULT_TIMEOUT) =
        .timeoutExpired →
      actionLoop env (("shell_command", commandData) :: rest) =
        ⟨("shell_result", [("status", .str "timeout"), ("stderr", .str "Command timed out"),
            ("exitcode", .int (-1))]) :: (actionLoop env rest).sent,
         (actionLoop env rest).writes, (actionLoop env rest).exc,
         (actionLoop env rest).closedConn⟩) ∧
    (env.runShell v ((lookupKey commandData "timeout").getD DEFAULT_TIMEOUT) = .failure →
      actionLoop env (("shell_command", commandData) :: rest) =
        ⟨("shell_result", [("status", .str "failed")]) :: (actionLoop env rest).sent,
         (actionLoop env rest).writes, (actionLoop env rest).exc,
         (actionLoop env rest).closedConn⟩) ∧
    (∀ out err code,
      env.runShell v ((lookupKey commandData "timeout").getD DEFAULT_TIMEOUT) =
          .completed out err code →
      actionLoop env (("shell_command", commandData) :: rest) =
        ⟨("shell_result", [("status", .str "ok"), ("stdout", .str out),
            ("stderr", .str err), ("exitcode", .int code)]) :: (actionLoop env rest).sent,
         (actionLoop env rest).writes, (actionLoop env rest).exc,
         (actionLoop env rest).closedConn⟩) := by
  have hh : handleAction env "shell_command" commandData =
      executeShellCommand env v ((lookupKey commandData "timeout").getD DEFAULT_TIMEOUT) := by
    rw [handleAction_shell_command, hv]
    simp [optTruthy, htr]
  refine ⟨fun hr => ?_, fun hr => ?_, fun out err code hr => ?_⟩ <;>
    rw [actionLoop_cons_ok env _ _ _ (by rw [hh]; simp [executeShellCommand, hr]), hh] <;>
    simp [executeShellCommand, hr]

theorem c4_witness :
    lookupKey [("command", Value.str "sleep 10"), ("timeout", Value.int 1)] "command" =
      some (Value.str "sleep 10") ∧
    (Value.str "sleep 10").truthy = true ∧
    envDown.runShell (Value.str "sleep 10")
      ((lookupKey [("command", Value.str "sleep 10"), ("timeout", Value.int 1)]
        "timeout").getD DEFAULT_TIMEOUT) = .timeoutExpired ∧
    actionLoop envDown
        [("shell_command", [("command", Value.str "sleep 10"), ("timeout", Value.int 1)])] =
      ⟨("shell_result", [("status", .str "timeout"), ("stderr", .str "Command timed out"),
          ("exitcode", .int (-1))]) :: (actionLoop envDown []).sent,
       (actionLoop envDown []).writes, (actionLoop envDown []).exc,
       (actionLoop envDown []).closedConn⟩ :=
  ⟨by decide, by decide, rfl,
   (c4_shell_outcomes envDown [("command", Value.str "sleep 10"), ("timeout", Value.int 1)]
     [] (Value.str "sleep 10") (by decide) (by decide)).1 rfl⟩

/-- Claim C6: a `list_dir` Action uses the payload's `path`, defaulting to "/"
when absent, and sends exactly one `list_dir` Response: status `not_found`
when the agent raises the not-found condition, status `failed` for any other
listing failure, and status `ok` with the entries on success; in all three
cases the loop continues. -/
theorem c6_list_dir_outcomes (env : Env) (commandData : Payload)
    (rest : List (String × Payload)) :
    (handleAction env "list_dir" commandData =
      getDirectoryListing env ((lookupKey commandData "path").getD (Value.str "/"))) ∧
    (env.listDirectory ((lookupKey commandData "path").getD (Value.str "/")) =
        .fileNotFound →
      actionLoop env (("list_dir", commandData) :: rest) =
        ⟨("list_dir", [("status", .str "not_found")]) :: (actionLoop env rest).sent,
         (actionLoop env rest).writes, (actionLoop env rest).exc,
         (actionLoop env rest).closedConn⟩) ∧
    (env.listDirectory ((lookupKey commandData "path").getD (Value.str "/")) = .failure →
      actionLoop env (("list_dir", commandData) :: rest) =
        ⟨("list_dir", [("status", .str "failed")]) :: (actionLoop env rest).sent,
         (actionLoop env rest).writes, (actionLoop env rest).exc,
         (actionLoop env rest).closedConn⟩) ∧
    (∀ entries,
      env.listDirectory ((lookupKey commandData "path").getD (Value.str "/")) =
          .ok entries →
      actionLoop env (("list_dir", commandData) :: rest) =
        ⟨("list_dir", [("status", .str "ok"), ("entries", entries)]) ::
            (actionLoop env rest).sent,
         (actionLoop env rest).writes, (actionLoop env rest).exc,
         (actionLoop env rest).closedConn⟩) := by
  refine ⟨handleAction_list_dir env commandData, fun hd => ?_, fun hd => ?_,
    fun entries hd => ?_⟩ <;>
    rw [actionLoop_cons_ok env _ _ _
        (by rw [handleAction_list_dir]; simp [getDirectoryListing, hd]),
      handleAction_list_dir] <;>
    simp [getDirectoryListing, hd]

theorem c6_witness :
    envDown.listDirectory ((lookupKey [("path", Value.str "/nonexistent")] "path").getD
      (Value.str "/")) = .fileNotFound ∧
    actionLoop envDown [("list_dir", [("path", Value.str "/nonexistent")])] =
      ⟨("list_dir", [("status", .str "not_found")]) :: (actionLoop envDown []).sent,
       (actionLoop envDown []).writes, (actionLoop envDown []).exc,
       (actionLoop envDown []).closedConn⟩ :=
  ⟨rfl, (c6_list_dir_outcomes envDown [("path", Value.str "/nonexistent")] []).2.1 rfl⟩

/-- Claim C7: a `get_file` Action with a present `path` sends `file_send` with
status `not_found` when the path is not an existing regular file; on success
it sends status `ok` with `filedata` the base64 encoding of the entire file
contents; a read failure sends status `failed`; in all three cases the loop
continues. -/
theorem c7_get_file_outcomes (env : Env) (commandData : Payload)
    (rest : List (String × Payload)) (v : Value)
    (hv : lookupKey commandData "path" = some v) :
    (env.isfile v = false →
      actionLoop env (("get_file", commandData) :: rest) =
        ⟨("file_send", [("status", .str "not_found")]) :: (actionLoop env rest).sent,
         (actionLoop env rest).writes, (actionLoop env rest).exc,
         (actionLoop env rest).closedConn⟩) ∧
    (∀ bytes, env.isfile v = true → env.readFile v = .ok bytes →
      actionLoop env (("get_file", commandData) :: rest) =
        ⟨("file_send", [("status", .str "ok"), ("filedata", .str (b64encode bytes))]) ::
            (actionLoop env rest).sent,
         (actionLoop env rest).writes, (actionLoop env rest).exc,
         (actionLoop env rest).closedConn⟩) ∧
    (env.isfile v = true → env.readFile v = .failure →
      actionLoop env (("get_file", commandData) :: rest) =
        ⟨("file_send", [("status", .str "failed")]) :: (actionLoop env rest).sent,
         (actionLoop env rest).writes, (actionLoop env rest).exc,
         (actionLoop env rest).closedConn⟩) := by
  have hh : handleAction env "get_file" commandData = sendFile env v := by
    rw [handleAction_get_file, hasKey, hv]
    rfl
  refine ⟨fun hf => ?_, fun bytes hf hr => ?_, fun hf hr => ?_⟩ <;>
    rw [actionLoop_cons_ok env _ _ _ (by rw [hh]; simp [sendFile, hf]; try simp [hr]), hh] <;>
    simp [sendFile, hf] <;> simp [hr]

theorem c7_witness :
    lookupKey [("path", Value.str "/etc/hosts")] "path" = some (Value.str "/etc/hosts") ∧
    envOk.isfile (Value.str "/etc/hosts") = true ∧
    envOk.readFile (Value.str "/etc/hosts") = .ok [104, 105, 255] ∧
    actionLoop envOk [("get_file", [("path", Value.str "/etc/hosts")])] =
      ⟨("file_send", [("status", .str "ok"),
          ("filedata", .str (b64encode [104, 105, 255]))]) :: (actionLoop envOk []).sent,
       (actionLoop envOk []).writes, (actionLoop envOk []).exc,
       (actionLoop envOk []).closedConn⟩ :=
  ⟨by decide, rfl, rfl,
   (c7_get_file_outcomes envOk [("path", Value.str "/etc/hosts")] []
     (Value.str "/etc/hosts") (by decide)).2.1 [104, 105, 255] rfl rfl⟩

/-- Claim C1: every Action received by the Router has exactly one terminal
outcome: either the iteration raises nothing and sends exactly one Response
whose type is the one the table in section 6 of the spec assigns to the
command, or it raises a failure and the loop terminates at that action; and
every command string outside the known set of seven gets an `invalid_action`
Response with an empty payload, after which the loop continues with the
remaining actions, so no Action is silently dropped. -/
theorem c1_every_action_one_outcome (env : Env) (command : String)
    (commandData : Payload) (rest : List (String × Payload)) :
    (((handleAction env command commandData).exc = none ∧
        List.map Prod.fst (handleAction env command commandData).sent =
          [(specResponseType command).getD "invalid_action"]) ∨
      ((handleAction env command commandData).exc.isSome = true ∧
        actionLoop env ((command, commandData) :: rest) =
          handleAction env command commandData)) ∧
    (command ∉ knownCommands →
      handleAction env command commandData = ⟨[("invalid_action", [])], [], none, false⟩ ∧
      actionLoop env ((command, commandData) :: rest) =
        ⟨("invalid_action", []) :: (actionLoop env rest).sent, (actionLoop env rest).writes,
         (actionLoop env rest).exc, (actionLoop env rest).closedConn⟩) := by
  constructor
  · by_cases h1 : command = "kick"
    · subst h1
      have hx : (handleAction env "kick" commandData).exc.isSome = true := by
        rw [handleAction_kick]
        cases lookupKey commandData "reason" <;> rfl
      exact Or.inr ⟨hx, actionLoop_cons_exc env _ _ rest hx⟩
    · by_cases h2 : command = "ping"
      · subst h2
        exact Or.inl ⟨rfl, rfl⟩
      · by_cases h3 : command = "get_status"
        · subst h3
          cases hs : env.getStatus with
          | ok d0 =>
            exact Or.inl ⟨by simp [handleAction_get_status, hs],
              by simp [handleAction_get_status, hs, specResponseType]⟩
          | failure =>
            have hx : (handleAction env "get_status" commandData).exc.isSome = true := by
              rw [handleAction_get_status, hs]
              rfl
            exact Or.inr ⟨hx, actionLoop_cons_exc env _ _ rest hx⟩
        · by_cases h4 : command = "list_dir"
          · subst h4
            cases hd : env.listDirectory ((lookupKey commandData "path").getD (.str "/")) <;>
              exact Or.inl ⟨by simp [handleAction_list_dir, getDirectoryListing, hd],
                by simp [handleAction_list_dir, getDirectoryListing, hd, specResponseType]⟩
          · by_cases h5 : command = "shell_command"
            · subst h5
              by_cases hc : optTruthy (lookupKey commandData "command") = true
              · cases hr : env.runShell ((lookupKey commandData "command").getD (.str ""))
                    ((lookupKey commandData "timeout").getD DEFAULT_TIMEOUT) <;>
                  exact Or.inl
                    ⟨by simp [handleAction_shell_command, hc, executeShellCommand, hr],
                     by simp [handleAction_shell_command, hc, executeShellCommand, hr,
                       specResponseType]⟩
              · have hx : (handleAction env "shell_command" commandData).exc.isSome = true := by
                  simp [handleAction_shell_command, hc]
                exact Or.inr ⟨hx, actionLoop_cons_exc env _ _ rest hx⟩
            · by_cases h6 : command = "get_file"
              · subst h6
                by_cases hk : hasKey commandData "path" = true
                · by_cases hf : env.isfile ((lookupKey commandData "path").getD (.str "")) = true
                  · cases hr : env.readFile ((lookupKey commandData "path").getD (.str "")) <;>
                      exact Or.inl ⟨by simp [handleAction_get_file, hk, sendFile, hf, hr],
                        by simp [handleAction_get_file, hk, sendFile, hf, hr, specResponseType]⟩
                  · exact Or.inl ⟨by simp [handleAction_get_file, hk, sendFile, hf],
                      by simp [handleAction_get_file, hk, sendFile, hf, specResponseType]⟩
                · have hx : (handleAction env "get_file" commandData).exc.isSome = true := by
                    simp [handleAction_get_file, hk]
                  exact Or.inr ⟨hx, actionLoop_cons_exc env _ _ rest hx⟩
              · by_cases h7 : command = "upload_file"
                · subst h7
                  by_cases hm : (!optTruthy (lookupKey commandData "path") ||
                      !optTruthy (lookupKey commandData "filedata")) = true
                  · have hx : (handleAction env "upload_file" commandData).exc.isSome = true := by
                      simp [handleAction_upload_file, hm]
                    exact Or.inr ⟨hx, actionLoop_cons_exc env _ _ rest hx⟩
                  · cases hd : decodeFiledata ((lookupKey commandData "filedata").getD (.str ""))
                      with
                    | none =>
                      exact Or.inl ⟨by simp [handleAction_upload_file, hm, saveFile, hd],
                        by simp [handleAction_upload_file, hm, saveFile, hd, specResponseType]⟩
                    | some bs =>
                      by_cases he : env.pathExists ((lookupKey commandData "path").getD
                          (.str "")) = true
                      · exact Or.inl ⟨by simp [handleAction_upload_file, hm, saveFile, hd, he],
                          by simp [handleAction_upload_file, hm, saveFile, hd, he,
                            specResponseType]⟩
                      · by_cases hw : env.writeSucceeds ((lookupKey commandData "path").getD
                            (.str "")) = true
                        · exact Or.inl
                            ⟨by simp [handleAction_upload_file, hm, saveFile, hd, he, hw],
                             by simp [handleAction_upload_file, hm, saveFile, hd, he, hw,
                               specResponseType]⟩
                        · exact Or.inl
                            ⟨by simp [handleAction_upload_file, hm, saveFile, hd, he, hw],
                             by simp [handleAction_upload_file, hm, saveFile, hd, he, hw,
                               specResponseType]⟩
                · have he := handleAction_unknown env command commandData h1 h2 h3 h4 h5 h6 h7
                  refine Or.inl ⟨by rw [he], ?_⟩
                  rw [he]
                  simp [specResponseType, h1, h2, h3, h4, h5, h6, h7]
  · intro hu
    have h : command ≠ "kick" ∧ command ≠ "ping" ∧ command ≠ "get_status" ∧
        command ≠ "list_dir" ∧ command ≠ "shell_command" ∧ command ≠ "get_file" ∧
        command ≠ "upload_file" := by
      simpa [knownCommands, not_or] using hu
    obtain ⟨hk, hp, hs, hl, hsh, hg, hup⟩ := h
    have he := handleAction_unknown env command commandData hk hp hs hl hsh hg hup
    refine ⟨he, ?_⟩
    rw [actionLoop_cons_ok env _ _ rest (by rw [he]), he]
    simp

theorem c1_witness :
    ("frobnicate" ∉ knownCommands) ∧
    (handleAction envOk "frobnicate" ([] : Payload) =
      ⟨[("invalid_action", [])], [], none, false⟩ ∧
     actionLoop envOk [("frobnicate", ([] : Payload)), ("ping", ([] : Payload))] =
      ⟨("invalid_action", []) :: (actionLoop envOk [("ping", ([] : Payload))]).sent,
       (actionLoop envOk [("ping", ([] : Payload))]).writes,
       (actionLoop envOk [("ping", ([] : Payload))]).exc,
       (actionLoop envOk [("ping", ([] : Payload))]).closedConn⟩) :=
  ⟨by decide,
   (c1_every_action_one_outcome envOk "frobnicate" [] [("ping", [])]).2 (by decide)⟩
